import Mathlib

/-!
Shallow embedding of the c_traits repository (iter.c, scan.c, and the
allocator translation unit) together with theorems checking the
natural-language specification against it.

Machine integers are modelled as Nat with explicit reduction modulo the
type width where the C code can wrap: uint32_t arithmetic reduces mod
U32 = 2^32 and size_t arithmetic reduces mod SZ = 2^64.
-/

set_option autoImplicit false

/-- Width of uint32_t values: 2^32. -/
def U32 : Nat := 4294967296

/-- Width of size_t values: 2^64. -/
def SZ : Nat := 18446744073709551616

/- ---------------------------------------------------------------- -/
/- iter.c : the Range iterator                                      -/
/- ---------------------------------------------------------------- -/

/-- The Range struct of iter.c: a current value and an inclusive end bound,
both uint32_t.  (The embedded Iter vtable holds the single function pointer
range_next, wired at creation; dispatch is modelled by calling range_next
directly.) -/
structure Range where
  current : Nat
  end_ : Nat
  deriving DecidableEq

/-- range_create of iter.c: returns (Range){ { range_next }, start, end }.
The source asserts 0xFFFFFFFF != end before constructing. -/
def range_create (start end_ : Nat) : Range :=
  ⟨start, end_⟩

/-- range_next of iter.c.  The caller-supplied result slot is modelled
explicitly: the second argument is the slot content before the call, the
middle component of the result is the slot content after the call.  The
body does, in order: *result = current; current++ (uint32_t, wrapping);
return current <= end (the post-increment current). -/
def range_next (r : Range) (_slot : Nat) : Range × Nat × Bool :=
  let slot2 := r.current
  let current2 := (r.current + 1) % U32
  (⟨current2, r.end_⟩, slot2, decide (current2 ≤ r.end_))

/-- Apply range_next n times, keeping only the iterator state. -/
def range_run (r : Range) : Nat → Range
  | 0 => r
  | n + 1 => range_run (range_next r 0).1 n

/-- Concrete Range state used by witnesses: already exhausted (current 11,
end 10), as reached from range_create 0 10 after 11 advances. -/
def rangeW : Range := ⟨11, 10⟩

/-- C1 counterexample: starting from range_create 0 10, the call that
writes 10 into the result slot returns false, not true as the claim
states (10 is within the interval from 0 to 10, yet the returned
has-more flag is false). -/
theorem C1_counterexample :
    (range_next (range_run (range_create 0 10) 10) 0).2.1 = 10 ∧
    (range_next (range_run (range_create 0 10) 10) 0).2.2 = false := by
  decide

/-- C1 (amended): range_next writes the pre-increment current into the
result slot, and returns true exactly when the post-increment current
(pre-increment value plus one, reduced mod 2^32) is still at most end;
for range_create 0 10 the k-th call (k from 0 to 10) writes k and returns
true exactly for k strictly below 10. -/
theorem C1_range_advance (r : Range) (slot : Nat) (k : Nat) (hk : k < 11) :
    (range_next r slot).2.1 = r.current ∧
    ((range_next r slot).2.2 = true ↔ (r.current + 1) % U32 ≤ r.end_) ∧
    (range_next (range_run (range_create 0 10) k) 0).2.1 = k ∧
    ((range_next (range_run (range_create 0 10) k) 0).2.2 = true ↔ k < 10) := by
  refine ⟨rfl, ?_, ?_, ?_⟩
  · simp [range_next]
  · interval_cases k <;> decide
  · interval_cases k <;> decide

/-- C1 witness: the amended statement instantiated at the exhausted state
rangeW with slot 0 and k = 3. -/
theorem C1_witness :
    (range_next rangeW 0).2.1 = rangeW.current ∧
    ((range_next rangeW 0).2.2 = true ↔ (rangeW.current + 1) % U32 ≤ rangeW.end_) ∧
    (range_next (range_run (range_create 0 10) 3) 0).2.1 = 3 ∧
    ((range_next (range_run (range_create 0 10) 3) 0).2.2 = true ↔ 3 < 10) :=
  C1_range_advance rangeW 0 3 (by decide)

/-- C2 counterexample: an exhausted Range does not leave the result slot
alone — at state (current 11, end 10) with slot content 999 the call
overwrites the slot with 11 — and the false returns do not hold forever:
at state (current 4294967295, end 10), still past the end, the increment
wraps and the call returns true. -/
theorem C2_counterexample :
    (range_next (⟨11, 10⟩ : Range) 999).2.1 ≠ 999 ∧
    (range_next (⟨4294967295, 10⟩ : Range) 999).2.2 = true := by
  decide

/-- C2 (amended): for a Range whose current has moved past end, a further
call to range_next returns false as long as incrementing current does not
wrap past 2^32, but the call still writes the pre-increment current into
the result slot and still increments current. -/
theorem C2_exhausted (r : Range) (slot : Nat)
    (h1 : r.end_ < r.current) (h2 : r.current + 1 < U32) :
    (range_next r slot).2.2 = false ∧
    (range_next r slot).2.1 = r.current ∧
    (range_next r slot).1 = Range.mk (r.current + 1) r.end_ := by
  have hmod : (r.current + 1) % U32 = r.current + 1 := Nat.mod_eq_of_lt h2
  refine ⟨?_, rfl, ?_⟩
  · simp only [range_next, hmod, decide_eq_false_iff_not]
    omega
  · simp [range_next, hmod]

/-- C2 witness: the amended statement instantiated at the exhausted state
rangeW (current 11, end 10) with slot content 999. -/
theorem C2_witness :
    (range_next rangeW 999).2.2 = false ∧
    (range_next rangeW 999).2.1 = rangeW.current ∧
    (range_next rangeW 999).1 = Range.mk (rangeW.current + 1) rangeW.end_ :=
  C2_exhausted rangeW 999 (by decide) (by decide)

/- ---------------------------------------------------------------- -/
/- alloc.c : BumpAllocator                                          -/
/- ---------------------------------------------------------------- -/

/-- The BumpAllocator struct: a base address for its caller-provided byte
buffer, a cursor of used bytes (count) and a capacity (length), both
size_t.  (The embedded Allocator vtable, wired by bump_allocator_create,
installs bump_allocator_alloc / bump_allocator_free /
bump_allocator_realloc; dispatch is modelled by calling those functions
directly.)  Pointers are modelled as addresses (Nat), NULL as none. -/
structure BumpAllocator where
  memory : Nat
  count : Nat
  length : Nat
  deriving DecidableEq

/-- bump_allocator_alloc: ptr starts NULL; if (count + size) < length
(size_t arithmetic) then ptr = &memory[count] and count += size; the pair
returned is (state after, ptr). -/
def bump_allocator_alloc (b : BumpAllocator) (size : Nat) :
    BumpAllocator × Option Nat :=
  if (b.count + size) % SZ < b.length then
    ({ b with count := (b.count + size) % SZ }, some (b.memory + b.count))
  else
    (b, none)

/-- bump_allocator_free: the body only casts and discards its arguments;
the allocator state is returned untouched. -/
def bump_allocator_free (b : BumpAllocator) (_ptr : Option Nat) :
    BumpAllocator :=
  b

/-- bump_allocator_realloc: returns
bump_allocator->allocator.alloc(&bump_allocator->allocator, size), the
vtable slot wired to bump_allocator_alloc; the old pointer is ignored. -/
def bump_allocator_realloc (b : BumpAllocator) (_old_ptr : Option Nat)
    (size : Nat) : BumpAllocator × Option Nat :=
  bump_allocator_alloc b size

/-- Concrete BumpAllocator state used by witnesses: base address 7,
100 bytes used of 1024. -/
def bumpW : BumpAllocator := ⟨7, 100, 1024⟩

/-- C3: bump_allocator_alloc succeeds (returns a non-NULL pointer) exactly
when count + size < length, strictly; on success the pointer is the
sub-buffer at offset count and count advances to count + size; on failure
the pointer is NULL and the state is unchanged.  The hypothesis rules out
size_t wraparound of count + size, which the source leaves unchecked. -/
theorem C3_bump_alloc (b : BumpAllocator) (size : Nat)
    (h : b.count + size < SZ) :
    ((bump_allocator_alloc b size).2.isSome = true ↔ b.count + size < b.length) ∧
    (b.count + size < b.length →
      (bump_allocator_alloc b size).2 = some (b.memory + b.count) ∧
      (bump_allocator_alloc b size).1.count = b.count + size ∧
      (bump_allocator_alloc b size).1.memory = b.memory ∧
      (bump_allocator_alloc b size).1.length = b.length) ∧
    (¬ b.count + size < b.length →
      (bump_allocator_alloc b size).2 = none ∧
      (bump_allocator_alloc b size).1 = b) := by
  unfold bump_allocator_alloc
  rw [Nat.mod_eq_of_lt h]
  refine ⟨?_, ?_, ?_⟩ <;> intros <;> split_ifs <;> simp_all

/-- C3 witness: the statement instantiated at bumpW with a request of 200
bytes (100 + 200 < 1024, the success branch). -/
theorem C3_witness :
    ((bump_allocator_alloc bumpW 200).2.isSome = true ↔ bumpW.count + 200 < bumpW.length) ∧
    (bumpW.count + 200 < bumpW.length →
      (bump_allocator_alloc bumpW 200).2 = some (bumpW.memory + bumpW.count) ∧
      (bump_allocator_alloc bumpW 200).1.count = bumpW.count + 200 ∧
      (bump_allocator_alloc bumpW 200).1.memory = bumpW.memory ∧
      (bump_allocator_alloc bumpW 200).1.length = bumpW.length) ∧
    (¬ bumpW.count + 200 < bumpW.length →
      (bump_allocator_alloc bumpW 200).2 = none ∧
      (bump_allocator_alloc bumpW 200).1 = bumpW) :=
  C3_bump_alloc bumpW 200 (by decide)

/-- C8: bump_allocator_realloc ignores the old pointer entirely and is the
same function of the state and size as a fresh bump_allocator_alloc: same
returned pointer, same resulting allocator state, no data copied. -/
theorem C8_bump_realloc_eq_alloc :
    ∀ (b : BumpAllocator) (old_ptr : Option Nat) (size : Nat),
      bump_allocator_realloc b old_ptr size = bump_allocator_alloc b size :=
  fun _ _ _ => rfl

/- ---------------------------------------------------------------- -/
/- alloc.c : ArenaAllocator                                         -/
/- ---------------------------------------------------------------- -/

/-- The backing allocator an arena delegates to, modelled by its two
operations the arena can invoke on growth: alloc takes a size and yields
a pointer (none for NULL), realloc takes the old pointer and a size. -/
structure Backing where
  alloc : Nat → Option Nat
  realloc : Option Nat → Nat → Option Nat

/-- One call made to the backing allocator, recorded so theorems can speak
about which operation the growth path used and with which arguments. -/
inductive BackingCall where
  | alloc (size : Nat)
  | realloc (old_ptr : Option Nat) (size : Nat)
  deriving DecidableEq

/-- True exactly on a BackingCall.alloc record. -/
def BackingCall.isAlloc : BackingCall → Bool
  | .alloc _ => true
  | .realloc _ _ => false

/-- The ArenaAllocator struct: memory (NULL when absent), count of used
bytes and current length, both size_t.  The backing_allocator field is a
borrowed reference; it is passed to the operations as a parameter. -/
structure ArenaAllocator where
  memory : Option Nat
  count : Nat
  length : Nat
  deriving DecidableEq

/-- arena_allocator_create: starts with no memory allocated. -/
def arena_allocator_create : ArenaAllocator :=
  ⟨none, 0, 0⟩

/-- Address of a possibly-NULL pointer, as C pointer arithmetic sees it
(NULL is address 0). -/
def addrOf : Option Nat → Nat
  | none => 0
  | some p => p

/-- arena_allocator_alloc: new_count = count + size (size_t); if
new_count > length, new_length = length * 2, bumped up to new_count when
that doubling is still short, memory = backing->alloc(backing, new_count)
(the result is stored unchecked) and length = new_length; in both cases
ptr = &memory[count] with the possibly-updated memory and the old count,
and count = new_count.  The third component records the calls made to the
backing allocator. -/
def arena_allocator_alloc (backing : Backing) (a : ArenaAllocator)
    (size : Nat) : ArenaAllocator × Nat × List BackingCall :=
  let new_count := (a.count + size) % SZ
  if a.length < new_count then
    let doubled := (a.length * 2) % SZ
    let new_length := if doubled < new_count then new_count else doubled
    let mem := backing.alloc new_count
    (⟨mem, new_count, new_length⟩, addrOf mem + a.count,
      [BackingCall.alloc new_count])
  else
    (⟨a.memory, new_count, a.length⟩, addrOf a.memory + a.count, [])

/-- arena_allocator_free: the body only discards its arguments; the
allocator state is returned untouched. -/
def arena_allocator_free (a : ArenaAllocator) (_ptr : Option Nat) :
    ArenaAllocator :=
  a

/-- arena_allocator_realloc: same size bookkeeping as
arena_allocator_alloc, but on growth it calls
backing->realloc(backing, memory, new_length), passing the old memory
pointer and the new length. -/
def arena_allocator_realloc (backing : Backing) (a : ArenaAllocator)
    (_old_ptr : Option Nat) (size : Nat) :
    ArenaAllocator × Nat × List BackingCall :=
  let new_count := (a.count + size) % SZ
  if a.length < new_count then
    let doubled := (a.length * 2) % SZ
    let new_length := if doubled < new_count then new_count else doubled
    let mem := backing.realloc a.memory new_length
    (⟨mem, new_count, new_length⟩, addrOf mem + a.count,
      [BackingCall.realloc a.memory new_length])
  else
    (⟨a.memory, new_count, a.length⟩, addrOf a.memory + a.count, [])

/-- Concrete backing allocator for witnesses: alloc yields address 1000,
realloc yields address 2000, never NULL. -/
def backingW : Backing :=
  ⟨fun _ => some 1000, fun _ _ => some 2000⟩

/-- Concrete ArenaAllocator state for witnesses: memory at address 64,
10 bytes used, length 16. -/
def arenaW : ArenaAllocator := ⟨some 64, 10, 16⟩

/-- C9: the release operations of both the bump allocator and the arena
allocator leave the entire allocator state unchanged, whatever pointer
argument they are given. -/
theorem C9_free_noop :
    ∀ (b : BumpAllocator) (pb : Option Nat)
      (a : ArenaAllocator) (pa : Option Nat),
      bump_allocator_free b pb = b ∧ arena_allocator_free a pa = a :=
  fun _ _ _ _ => ⟨rfl, rfl⟩

/-- C4: arena_allocator_alloc grows (records a backing call) exactly when
new_count = count + size exceeds the current length; on growth the new
length is double the old length, or new_count when doubling is
insufficient, the memory is a fresh buffer obtained from the backing
allocator, and the length strictly increases; the returned pointer sits
at the old count offset into the (possibly new) memory and count advances
to new_count; on a freshly created arena, allocate(100) with a succeeding
backing allocator makes memory non-NULL.  The first two hypotheses rule
out size_t wraparound of count + size and length * 2, unchecked in the
source. -/
theorem C4_arena_alloc (backing : Backing) (a : ArenaAllocator) (size : Nat)
    (hc : a.count + size < SZ) (hl : a.length * 2 < SZ)
    (hb : (backing.alloc 100).isSome = true) :
    ((arena_allocator_alloc backing a size).2.2 ≠ [] ↔
      a.length < a.count + size) ∧
    (a.length < a.count + size →
      (arena_allocator_alloc backing a size).2.2 =
        [BackingCall.alloc (a.count + size)] ∧
      (arena_allocator_alloc backing a size).1.length =
        (if a.length * 2 < a.count + size then a.count + size
         else a.length * 2) ∧
      a.length < (arena_allocator_alloc backing a size).1.length ∧
      (arena_allocator_alloc backing a size).1.memory =
        backing.alloc (a.count + size)) ∧
    (arena_allocator_alloc backing a size).2.1 =
      addrOf (arena_allocator_alloc backing a size).1.memory + a.count ∧
    (arena_allocator_alloc backing a size).1.count = a.count + size ∧
    ((arena_allocator_alloc backing arena_allocator_create 100).1.memory).isSome
       = true := by
  have h100 : (0 + 100) % SZ = 100 := by decide
  refine ⟨?_, ?_, ?_, ?_, ?_⟩
  · simp only [arena_allocator_alloc, Nat.mod_eq_of_lt hc]
    split_ifs <;> simp_all
  · intro hg
    simp only [arena_allocator_alloc, Nat.mod_eq_of_lt hc,
      Nat.mod_eq_of_lt hl, if_pos hg]
    refine ⟨trivial, trivial, ?_, trivial⟩
    split_ifs <;> omega
  · simp only [arena_allocator_alloc, Nat.mod_eq_of_lt hc]
    split_ifs <;> rfl
  · simp only [arena_allocator_alloc, Nat.mod_eq_of_lt hc]
    split_ifs <;> rfl
  · simp only [arena_allocator_alloc, arena_allocator_create, h100]
    simpa using hb

/-- C4 witness: the statement instantiated at backingW and arenaW with a
request of 10 bytes (10 + 10 exceeds length 16, the growth branch). -/
theorem C4_witness :
    ((arena_allocator_alloc backingW arenaW 10).2.2 ≠ [] ↔
      arenaW.length < arenaW.count + 10) ∧
    (arenaW.length < arenaW.count + 10 →
      (arena_allocator_alloc backingW arenaW 10).2.2 =
        [BackingCall.alloc (arenaW.count + 10)] ∧
      (arena_allocator_alloc backingW arenaW 10).1.length =
        (if arenaW.length * 2 < arenaW.count + 10 then arenaW.count + 10
         else arenaW.length * 2) ∧
      arenaW.length < (arena_allocator_alloc backingW arenaW 10).1.length ∧
      (arena_allocator_alloc backingW arenaW 10).1.memory =
        backingW.alloc (arenaW.count + 10)) ∧
    (arena_allocator_alloc backingW arenaW 10).2.1 =
      addrOf (arena_allocator_alloc backingW arenaW 10).1.memory + arenaW.count ∧
    (arena_allocator_alloc backingW arenaW 10).1.count = arenaW.count + 10 ∧
    ((arena_allocator_alloc backingW arena_allocator_create 100).1.memory).isSome
       = true :=
  C4_arena_alloc backingW arenaW 10 (by decide) (by decide) (by decide)

/-- C5 counterexample: a growing arena_allocator_realloc (state: memory at
address 100, count 5, length 10; request 20, so new_count 25 exceeds
length 10) obtains its new memory through the backing reallocate
operation — the recorded backing call is a realloc of the old pointer to
25 bytes, and no allocate call occurs — refuting the claim that every
growth path calls allocate and never reallocate. -/
theorem C5_counterexample :
    (arena_allocator_realloc
        ⟨fun _ => some 500, fun _ _ => some 600⟩
        ⟨some 100, 5, 10⟩ (some 100) 20).2.2 =
      [BackingCall.realloc (some 100) 25] ∧
    ((arena_allocator_realloc
        ⟨fun _ => some 500, fun _ _ => some 600⟩
        ⟨some 100, 5, 10⟩ (some 100) 20).2.2.any BackingCall.isAlloc)
      = false := by
  decide

/-- C5 (amended): the growth path of arena_allocator_alloc asks the
backing allocator through its allocate operation (for new_count bytes, so
old contents are not carried over there), while the growth path of
arena_allocator_realloc instead calls the backing reallocate operation,
passing the old memory pointer and the new length. -/
theorem C5_growth_backing_calls (backing : Backing) (a : ArenaAllocator)
    (old_ptr : Option Nat) (size : Nat)
    (hc : a.count + size < SZ) (hl : a.length * 2 < SZ)
    (hg : a.length < a.count + size) :
    (arena_allocator_alloc backing a size).2.2 =
      [BackingCall.alloc (a.count + size)] ∧
    (arena_allocator_realloc backing a old_ptr size).2.2 =
      [BackingCall.realloc a.memory
        (if a.length * 2 < a.count + size then a.count + size
         else a.length * 2)] := by
  constructor
  · simp only [arena_allocator_alloc, Nat.mod_eq_of_lt hc, if_pos hg]
  · simp only [arena_allocator_realloc, Nat.mod_eq_of_lt hc,
      Nat.mod_eq_of_lt hl, if_pos hg]

/-- C5 witness: the amended statement instantiated at backingW and arenaW
with old pointer arenaW.memory and a request of 10 bytes. -/
theorem C5_witness :
    (arena_allocator_alloc backingW arenaW 10).2.2 =
      [BackingCall.alloc (arenaW.count + 10)] ∧
    (arena_allocator_realloc backingW arenaW arenaW.memory 10).2.2 =
      [BackingCall.realloc arenaW.memory
        (if arenaW.length * 2 < arenaW.count + 10 then arenaW.count + 10
         else arenaW.length * 2)] :=
  C5_growth_backing_calls backingW arenaW arenaW.memory 10
    (by decide) (by decide) (by decide)

/-- C10: on a growing arena_allocator_alloc whose doubled old length
exceeds new_count = count + size, the backing allocator is asked for
exactly new_count bytes while the recorded length is set to the doubled
old length, which is strictly greater than the size of the buffer
actually obtained. -/
theorem C10_arena_growth_mismatch (backing : Backing) (a : ArenaAllocator)
    (size : Nat)
    (hc : a.count + size < SZ) (hl : a.length * 2 < SZ)
    (hg : a.length < a.count + size) (hd : a.count + size < a.length * 2) :
    (arena_allocator_alloc backing a size).2.2 =
      [BackingCall.alloc (a.count + size)] ∧
    (arena_allocator_alloc backing a size).1.length = a.length * 2 ∧
    a.count + size < (arena_allocator_alloc backing a size).1.length := by
  simp only [arena_allocator_alloc, Nat.mod_eq_of_lt hc,
    Nat.mod_eq_of_lt hl, if_pos hg, if_neg (by omega : ¬ a.length * 2 < a.count + size)]
  exact ⟨trivial, trivial, hd⟩

/-- C10 witness: the statement instantiated at backingW and arenaW with a
request of 10 bytes: new_count is 20, the doubled length 32 exceeds it,
so the backing allocator is asked for 20 bytes while length becomes 32. -/
theorem C10_witness :
    (arena_allocator_alloc backingW arenaW 10).2.2 =
      [BackingCall.alloc (arenaW.count + 10)] ∧
    (arena_allocator_alloc backingW arenaW 10).1.length = arenaW.length * 2 ∧
    arenaW.count + 10 < (arena_allocator_alloc backingW arenaW 10).1.length :=
  C10_arena_growth_mismatch backingW arenaW 10
    (by decide) (by decide) (by decide) (by decide)

/- ---------------------------------------------------------------- -/
/- scan.c : StringBuilder                                           -/
/- ---------------------------------------------------------------- -/

/-- The StringBuilder struct of scan.c: strings models the used slots of
the strings array in order (the unused tail of the calloc-ed array is not
observable through the operations modelled here), count the number of
strings collected, length the capacity of the array, both uint32_t.
(The embedded Scan vtable, wired by string_builder_create, installs
string_builder_return and string_builder_append.) -/
structure StringBuilder where
  strings : List String
  count : Nat
  length : Nat
  deriving DecidableEq

/-- string_builder_create: calloc-s a strings array of the given capacity
and returns the builder with count 0 and length capacity. -/
def string_builder_create (capacity : Nat) : StringBuilder :=
  ⟨[], 0, capacity⟩

/-- string_builder_append of scan.c: if count == length, new_length =
length * 2 (uint32_t), the array is realloc-ed and length = new_length;
then strings[count] = string and count++ (uint32_t). -/
def string_builder_append (b : StringBuilder) (s : String) : StringBuilder :=
  if b.count = b.length then
    ⟨b.strings ++ [s], (b.count + 1) % U32, (b.length * 2) % U32⟩
  else
    ⟨b.strings ++ [s], (b.count + 1) % U32, b.length⟩

/-- The character-copy loop of string_builder_return: the bytes of each
stored string, in order. -/
def concat_strings : List String → List Char
  | [] => []
  | s :: rest => s.data ++ concat_strings rest

/-- string_builder_return of scan.c: copies the bytes of
strings[0..count) in order into the caller-provided output buffer and
writes a terminating null character; the builder itself is only read, so
it is returned unchanged together with the written output. -/
def string_builder_return (b : StringBuilder) : StringBuilder × List Char :=
  (b, concat_strings (b.strings.take b.count) ++ [Char.ofNat 0])

/-- The spec test sequence: capacity 2, then four appends (the third one
forces a capacity doubling from 2 to 4). -/
def sbDemo : StringBuilder :=
  string_builder_append
    (string_builder_append
      (string_builder_append
        (string_builder_append (string_builder_create 2) "building ")
        "a ")
      "string ")
    "incrementally."

/-- Concrete StringBuilder state used by witnesses: one stored string,
count 1, length 2. -/
def sbW : StringBuilder := ⟨["x "], 1, 2⟩

/-- Appending one more string to the used slots concatenates its bytes at
the end of the copied output. -/
theorem concat_strings_snoc (xs : List String) (s : String) :
    concat_strings (xs ++ [s]) = concat_strings xs ++ s.data := by
  induction xs with
  | nil => simp [concat_strings]
  | cons x xs ih => simp [concat_strings, ih]

/-- C6 counterexample: with initial capacity 0 the first append doubles
the length from 0 to 0 and then sets count to 1, so the invariant
count ≤ length is violated. -/
theorem C6_counterexample :
    ¬ ((string_builder_append (string_builder_create 0) "x").count ≤
        (string_builder_append (string_builder_create 0) "x").length) := by
  decide

/-- C6 (amended): a builder created with capacity c starts with count 0
and length c, and string_builder_append preserves count ≤ length for
every state whose length is at least 1 (and whose doubling does not wrap
uint32_t); for initial capacity 0 the first append instead breaks the
invariant, since doubling 0 gives 0. -/
theorem C6_invariant (c : Nat) (b : StringBuilder) (s : String)
    (hinv : b.count ≤ b.length) (hpos : 1 ≤ b.length)
    (hw : b.length * 2 < U32) :
    (string_builder_create c).count = 0 ∧
    (string_builder_create c).length = c ∧
    (string_builder_append b s).count ≤ (string_builder_append b s).length := by
  refine ⟨rfl, rfl, ?_⟩
  unfold string_builder_append
  split_ifs with he
  · simp only
    rw [Nat.mod_eq_of_lt (by omega), Nat.mod_eq_of_lt hw]
    omega
  · simp only
    rw [Nat.mod_eq_of_lt (by omega)]
    omega

/-- C6 witness: the amended statement instantiated at capacity 5 and the
state sbW (count 1, length 2) appending one string. -/
theorem C6_witness :
    (string_builder_create 5).count = 0 ∧
    (string_builder_create 5).length = 5 ∧
    (string_builder_append sbW "y").count ≤ (string_builder_append sbW "y").length :=
  C6_invariant 5 sbW "y" (by decide) (by decide) (by decide)

/-- C7: string_builder_return writes the concatenation of the stored
strings in append order followed by a terminating null character and
leaves the builder untouched, so two consecutive extracts write the same
output; an append after an extract is reflected in the next extract
(its bytes appear at the end, before the terminator); and the spec test
(capacity 2, appending the four words) extracts exactly the bytes of
"building a string incrementally." plus the terminator.  The hypotheses
say the used-slot count matches the stored strings and incrementing it
does not wrap uint32_t. -/
theorem C7_string_builder_extract (b : StringBuilder) (s : String)
    (hcount : b.count = b.strings.length) (hlt : b.count + 1 < U32) :
    (string_builder_return b).1 = b ∧
    (string_builder_return (string_builder_return b).1).2 =
      (string_builder_return b).2 ∧
    (string_builder_return (string_builder_append (string_builder_return b).1 s)).2 =
      concat_strings b.strings ++ s.data ++ [Char.ofNat 0] ∧
    (string_builder_return sbDemo).2 =
      ("building a string incrementally.".data ++ [Char.ofNat 0]) := by
  refine ⟨rfl, rfl, ?_, by decide⟩
  unfold string_builder_return string_builder_append
  split_ifs with he
  · simp only
    rw [Nat.mod_eq_of_lt hlt, hcount,
      List.take_of_length_le (by simp), concat_strings_snoc]
  · simp only
    rw [Nat.mod_eq_of_lt hlt, hcount,
      List.take_of_length_le (by simp), concat_strings_snoc]

/-- C7 witness: the statement instantiated at the state sbW appending the
string y. -/
theorem C7_witness :
    (string_builder_return sbW).1 = sbW ∧
    (string_builder_return (string_builder_return sbW).1).2 =
      (string_builder_return sbW).2 ∧
    (string_builder_return (string_builder_append (string_builder_return sbW).1 "y")).2 =
      concat_strings sbW.strings ++ "y".data ++ [Char.ofNat 0] ∧
    (string_builder_return sbDemo).2 =
      ("building a string incrementally.".data ++ [Char.ofNat 0]) :=
  C7_string_builder_extract sbW "y" (by decide) (by decide)
